import Mathlib

/- A shallow embedding of the Plover HID machine plugin
(plover_machine_hid.py): report parsing, key-state accumulation, debounce
timer scheduling and chord emission, together with theorems settling the
specification claims about it.  Times are modelled in milliseconds as
naturals.  The BitString values of the bitstring library are modelled as
lists of booleans in the order the library indexes them (bit 0 is the most
significant bit of the first byte); the truthiness of a BitString is
"some bit is set". -/

namespace PloverHid

/-- Source constant N_LEVERS = 64. -/
def N_LEVERS : ℕ := 64

/-- Source constant SIMPLE_REPORT_LEN = N_LEVERS // 8. -/
def SIMPLE_REPORT_LEN : ℕ := N_LEVERS / 8

/-- Source constant STENO_KEY_CHART, the fixed lever-index-to-name table
(64 entries). -/
def STENO_KEY_CHART : List String :=
  ["S-", "T-", "K-", "P-", "W-", "H-",
   "R-", "A-", "O-", "*", "-E", "-U",
   "-F", "-R", "-P", "-B", "-L", "-G",
   "-T", "-S", "-D", "-Z", "#",
   "X1", "X2", "X3", "X4", "X5", "X6",
   "X7", "X8", "X9", "X10", "X11", "X12",
   "X13", "X14", "X15", "X16", "X17", "X18",
   "X19", "X20", "X21", "X22", "X23", "X24",
   "X25", "X26", "X27", "X28", "X29", "X30",
   "X31", "X32", "X33", "X34", "X35", "X36",
   "X37", "X38", "X39", "X40", "X41"]

/-- The 8 bits of one byte in the order the bitstring library indexes a
BitString built from bytes: most significant bit first. -/
def byteToBits (b : ℕ) : List Bool :=
  (List.range 8).map (fun j => Nat.testBit b (7 - j))

/-- BitString built from a byte sequence: the concatenated bits of the
bytes, 8 per byte, most significant bit of each byte first. -/
def bitString (payload : List ℕ) : List Bool :=
  payload.flatMap byteToBits

/-- The all-zero 64-bit vector, BitString(N_LEVERS). -/
def zeros64 : List Bool := List.replicate N_LEVERS false

/-- Truthiness of a BitString: true means no bit is set.  The test
"if not report" in the source run loop is this predicate on the decoded
report. -/
def isZeroVec (v : List Bool) : Bool := !(v.any id)

/-- HidMachine._parse: the report is valid iff
len(report) > SIMPLE_REPORT_LEN and report[0] == 0x50; on success the
result is BitString(report[1:SIMPLE_REPORT_LEN+1]); otherwise
InvalidReport is raised, modelled as none. -/
def hid_parse (report : List ℕ) : Option (List Bool) :=
  if SIMPLE_REPORT_LEN < report.length ∧ report.head? = some 0x50 then
    some (bitString ((report.drop 1).take SIMPLE_REPORT_LEN))
  else none

/-- The in-place OR of two equal-length BitStrings
(the source line keystate |= report). -/
def orVec (a b : List Bool) : List Bool := List.zipWith or a b

/-- Source constant wpm = 2000. -/
def wpm : ℕ := 2000

/-- sec_per_word = 1 / (wpm / 60), expressed in milliseconds: 30 ms. -/
def msPerWord : ℕ := 60000 / wpm

/-- State of the read-worker loop in run.  debouncer is the fire time of
the Timer currently bound to the debouncer variable (none when the binding
is None, the Quiescent scheduler state).  started records the fire time of
every Timer the loop ever constructed and started: the source never calls
cancel() on any timer and rebinding the debouncer variable does not stop
the previously started timer, so every entry of started is a time at which
the send_to_plover callback actually runs. -/
structure LoopState where
  keystate : List Bool
  debouncer : Option ℕ
  started : List ℕ
deriving DecidableEq

/-- The loop state right after self._ready():
keystate = BitString(N_LEVERS), debouncer = None, no timer started yet. -/
def state0 : LoopState := { keystate := zeros64, debouncer := none, started := [] }

/-- The comprehension
[STENO_KEY_CHART[i] for (i, x) in enumerate(keystate) if x]
inside send_to_plover. -/
def chordNames (keystate : List Bool) : List String :=
  keystate.enum.filterMap
    (fun p => if p.2 then some (STENO_KEY_CHART.getD p.1 "") else none)

/-- The observable effects of one send_to_plover call: the keystate
snapshot it consumed, the argument lists passed to
self.keymap.keys_to_actions, and the actions passed to self._notify
(none when the notification branch was not taken). -/
structure FlushLog where
  snapshot : List Bool
  resolver_calls : List (List String)
  notified : Option (List String)
deriving DecidableEq

/-- send_to_plover, with the external keys_to_actions chord resolver
injected as a function.  It reads keystate, unconditionally calls the
resolver on the chord-name list, calls self._notify exactly when the
returned action list is non-empty, then resets keystate to the all-zero
vector and rebinds debouncer to None. -/
def send_to_plover (keys_to_actions : List String → List String)
    (s : LoopState) : FlushLog × LoopState :=
  let names := chordNames s.keystate
  let steno_actions := keys_to_actions names
  ({ snapshot := s.keystate,
     resolver_calls := [names],
     notified := if steno_actions = [] then none else some steno_actions },
   { keystate := zeros64, debouncer := none, started := s.started })

/-- One iteration of the body of run for a report read at time t (ms):
parse the raw report (on InvalidReport the report is skipped entirely and
the loop continues), merge the decoded vector into keystate, and if the
decoded vector itself is all-zero, construct and start a new Timer firing
msPerWord later, rebinding debouncer without cancelling the previously
started timer. -/
def runStep (t : ℕ) (raw : List ℕ) (s : LoopState) : LoopState :=
  match hid_parse raw with
  | none => s
  | some report =>
    let ks := orVec s.keystate report
    if isZeroVec report then
      { keystate := ks, debouncer := some (t + msPerWord),
        started := s.started ++ [t + msPerWord] }
    else
      { keystate := ks, debouncer := s.debouncer, started := s.started }

/-- A raw report tagged with the time (ms) the read worker receives it. -/
structure TimedReport where
  t : ℕ
  raw : List ℕ

/-- The read worker processes, in order, exactly the reports read before
it observes the stop signal at time stopAt (the loop condition
"while not self.finished.wait(0)"). -/
def runReports (inputs : List TimedReport) (stopAt : ℕ) : LoopState :=
  (inputs.filter (fun r => r.t < stopAt)).foldl (fun s r => runStep r.t r.raw s) state0

/-- The times at which send_to_plover fires during and after a run: one
firing per started timer, because the source cancels no timer, neither on
re-arm (the old Timer object is merely rebound away) nor in stop_capture
(which only closes the hid handle). -/
def flushTimes (inputs : List TimedReport) (stopAt : ℕ) : List ℕ :=
  (runReports inputs stopAt).started

/-- A valid raw report asserting no levers. -/
def zeroReport : List ℕ := [0x50, 0, 0, 0, 0, 0, 0, 0, 0]

/-- The accumulator contents after merging a sequence of decoded vectors
into a fresh all-zero accumulator. -/
def mergeAll (vs : List (List Bool)) : List Bool := vs.foldl orVec zeros64

/-- Transcribed from the wording of claim C2: a vector whose bit i equals
bit (i mod 8) of payload byte (i div 8), least significant bit first
within each byte. -/
def specLsbFirst (payload : List ℕ) : List Bool :=
  (List.range 64).map (fun i => Nat.testBit (payload.getD (i / 8) 0) (i % 8))

/-- The amended ordering: bit i equals bit (7 - i mod 8) of payload byte
(i div 8), most significant bit first within each byte. -/
def specMsbFirst (payload : List ℕ) : List Bool :=
  (List.range 64).map (fun i => Nat.testBit (payload.getD (i / 8) 0) (7 - i % 8))

/-- Chord names as claim C8 words them: scan bit indices 0..63 in
ascending order and append, for each set bit, the corresponding entry of
the lever-index-to-name table. -/
def specNames (ks : List Bool) : List String :=
  (List.range 64).filterMap
    (fun i => if ks.getD i false then some (STENO_KEY_CHART.getD i "") else none)

/-- Claim C2 counterexample: for the valid 9-byte report with payload byte
0 equal to 0x01, the claim (least-significant-bit-first ordering) predicts
bit 0 of the result is set, but the code (BitString indexing) sets bit 7
instead: the parse result differs from the least-significant-bit-first
reading of the payload. -/
theorem C2_cex :
    hid_parse [0x50, 1, 0, 0, 0, 0, 0, 0, 0]
      ≠ some (specLsbFirst [1, 0, 0, 0, 0, 0, 0, 0]) := by decide

/-- Claim C2 (amended): for every valid 9-byte raw report, parse returns
the 64-bit vector whose bit i equals bit (7 - i mod 8) of payload byte
(i div 8): most-significant-bit-first within each byte, so bit 0 of the
vector is the most significant bit of payload byte 0 and bit 63 is the
least significant bit of payload byte 7. -/
theorem C2_amended (b0 b1 b2 b3 b4 b5 b6 b7 : ℕ) :
    hid_parse [0x50, b0, b1, b2, b3, b4, b5, b6, b7]
      = some (specMsbFirst [b0, b1, b2, b3, b4, b5, b6, b7]) := by
  rfl

/-- Claim C1 (failing run, evaluated on the embedding): with valid
all-zero reports at 0 ms and at 10 ms (closer together than
msPerWord = 30 ms) and the stop signal far away, the run loop starts two
timers and cancels neither, so send_to_plover fires both at 30 ms
(msPerWord after the FIRST all-zero report) and at 40 ms: two flushes
fire, one of them at exactly the time the claim says none fires. -/
theorem C1_two_flushes_fire :
    flushTimes [⟨0, zeroReport⟩, ⟨10, zeroReport⟩] 1000 = [30, 40]
    ∧ 0 + msPerWord = 30 ∧ 10 + msPerWord = 40 := by decide

/-- Claim C3 (failing run, evaluated on the embedding): one all-zero
report at 0 ms arms the scheduler; the stop signal is observed at 10 ms
while the scheduler is still Armed (debouncer bound to the timer due at
30 ms, which has not fired); that timer is never cancelled, so the flush
still fires at 30 ms, strictly after the stop signal was observed. -/
theorem C3_flush_fires_after_stop :
    (runReports [⟨0, zeroReport⟩] 10).debouncer = some 30
    ∧ flushTimes [⟨0, zeroReport⟩] 10 = [30]
    ∧ 10 < 30 := by decide

/-- Claim C5: parse fails with InvalidReport exactly when the raw report
is 8 bytes or fewer, or its first byte differs from 0x50; and on failure
the report is skipped entirely: the loop body leaves the state unchanged
(no accumulator mutation, no scheduler arming). -/
theorem C5_parse_failure (raw : List ℕ) (t : ℕ) (s : LoopState) :
    (hid_parse raw = none ↔ raw.length ≤ 8 ∨ raw.head? ≠ some 0x50)
    ∧ (hid_parse raw = none → runStep t raw s = s) := by
  constructor
  · have hiff : hid_parse raw = none
        ↔ ¬(SIMPLE_REPORT_LEN < raw.length ∧ raw.head? = some 0x50) := by
      unfold hid_parse
      split <;> simp_all
    rw [hiff, not_and_or, not_lt]
    simp [SIMPLE_REPORT_LEN, N_LEVERS]
  · intro h
    unfold runStep
    rw [h]

/-- Claim C5 witness: the 1-byte report [0x00] is rejected and leaves the
initial state untouched. -/
theorem C5_parse_failure_witness :
    (hid_parse [0] = none ↔ ([0] : List ℕ).length ≤ 8 ∨ ([0] : List ℕ).head? ≠ some 0x50)
    ∧ runStep 5 [0] state0 = state0 := by
  have h := C5_parse_failure [0] 5 state0
  exact ⟨h.1, h.2 (h.1.mpr (by decide))⟩

/-- Claim C7: a report whose decoded bit-vector is non-zero only merges
into the accumulator and leaves the scheduler state untouched: the
debouncer binding is unchanged and no new timer is started (hence nothing
is armed, re-armed or cancelled). -/
theorem C7_nonzero_report_only_merges (t : ℕ) (raw : List ℕ) (s : LoopState)
    (v : List Bool) (hp : hid_parse raw = some v) (hz : isZeroVec v = false) :
    (runStep t raw s).keystate = orVec s.keystate v
    ∧ (runStep t raw s).debouncer = s.debouncer
    ∧ (runStep t raw s).started = s.started := by
  unfold runStep
  rw [hp]
  simp [hz]

/-- Claim C7 witness: the valid report with payload byte 0 equal to 0x01
decodes to a non-zero vector, merges, and leaves the scheduler state of
the initial state unchanged. -/
theorem C7_nonzero_report_only_merges_witness :
    (runStep 0 [0x50, 1, 0, 0, 0, 0, 0, 0, 0] state0).keystate
        = orVec state0.keystate (bitString [1, 0, 0, 0, 0, 0, 0, 0])
    ∧ (runStep 0 [0x50, 1, 0, 0, 0, 0, 0, 0, 0] state0).debouncer = state0.debouncer
    ∧ (runStep 0 [0x50, 1, 0, 0, 0, 0, 0, 0, 0] state0).started = state0.started :=
  C7_nonzero_report_only_merges 0 [0x50, 1, 0, 0, 0, 0, 0, 0, 0] state0
    (bitString [1, 0, 0, 0, 0, 0, 0, 0]) (by rfl) (by decide)

/-- Claim C9: for every raw report longer than 9 bytes whose first byte is
0x50, parse succeeds and the result equals parse of the 9-byte front part
of the report: only bytes 1 through 8 matter, trailing bytes are
ignored. -/
theorem C9_long_reports (raw : List ℕ) (h9 : 9 < raw.length)
    (h0 : raw.head? = some 0x50) :
    (hid_parse raw).isSome ∧ hid_parse raw = hid_parse (raw.take 9) := by
  obtain ⟨a, rest, rfl⟩ : ∃ a rest, raw = a :: rest := by
    cases raw with
    | nil => simp at h0
    | cons a rest => exact ⟨a, rest, rfl⟩
  have ha : a = 0x50 := by simpa using h0
  have hlen : 8 ≤ rest.length := by
    simp only [List.length_cons] at h9
    omega
  subst ha
  unfold hid_parse
  simp only [List.take_succ_cons, List.head?_cons, List.length_cons,
    List.length_take, List.drop_succ_cons, List.drop_zero, List.take_take,
    SIMPLE_REPORT_LEN, N_LEVERS]
  have h8 : 8 < rest.length + 1 := by omega
  have hmin : (8 : ℕ) ⊓ rest.length = 8 := by omega
  simp [h8, hmin, Nat.min_self]

/-- Claim C9 witness: a 10-byte valid report parses, and parses the same
as its 9-byte front part. -/
theorem C9_long_reports_witness :
    (hid_parse [0x50, 1, 2, 3, 4, 5, 6, 7, 8, 9]).isSome
    ∧ hid_parse [0x50, 1, 2, 3, 4, 5, 6, 7, 8, 9]
        = hid_parse (([0x50, 1, 2, 3, 4, 5, 6, 7, 8, 9] : List ℕ).take 9) :=
  C9_long_reports [0x50, 1, 2, 3, 4, 5, 6, 7, 8, 9] (by decide) (by decide)

/-- Claim C10: every firing of send_to_plover resets the accumulator to
the all-zero vector and rebinds the debouncer handle to None (the
Quiescent state), unconditionally: in particular also when the resolver
returns an empty action set and no notification is sent. -/
theorem C10_flush_resets (resolve : List String → List String) (s : LoopState) :
    (send_to_plover resolve s).2.keystate = zeros64
    ∧ (send_to_plover resolve s).2.debouncer = none :=
  ⟨rfl, rfl⟩

/-- Merging into a fresh all-zero accumulator of matching length is the
identity. -/
theorem orVec_zeros_left (A : List Bool) :
    orVec (List.replicate A.length false) A = A := by
  induction A with
  | nil => rfl
  | cons a t ih =>
    simp only [orVec, List.replicate_succ, List.length_cons,
      List.zipWith_cons_cons, Bool.false_or] at ih ⊢
    rw [ih]

/-- Merging is associative. -/
theorem orVec_assoc (A : List Bool) : ∀ (B C : List Bool),
    orVec (orVec A B) C = orVec A (orVec B C) := by
  induction A with
  | nil => intro B C; rfl
  | cons a t ih =>
    intro B C
    cases B with
    | nil => rfl
    | cons b tb =>
      cases C with
      | nil => rfl
      | cons c tc =>
        have h := ih tb tc
        simp only [orVec] at h
        simp [orVec, List.zipWith_cons_cons, Bool.or_assoc, h]

/-- Merging is commutative. -/
theorem orVec_comm (A : List Bool) : ∀ B : List Bool, orVec A B = orVec B A := by
  induction A with
  | nil => intro B; cases B <;> rfl
  | cons a t ih =>
    intro B
    cases B with
    | nil => rfl
    | cons b tb =>
        have h := ih tb
        simp only [orVec] at h
        simp [orVec, List.zipWith_cons_cons, Bool.or_comm, h]

/-- Filtering an enumerated list is the same as filtering the index range
and looking elements up by position. -/
theorem enumFrom_filterMap (g : ℕ × Bool → Option String) :
    ∀ (ks : List Bool) (n : ℕ),
      (List.enumFrom n ks).filterMap g
        = (List.range ks.length).filterMap (fun i => g (n + i, ks.getD i false)) := by
  intro ks
  induction ks with
  | nil => intro n; rfl
  | cons b t ih =>
    intro n
    rw [List.enumFrom_cons, List.length_cons, List.range_succ_eq_map,
      List.filterMap_cons, List.filterMap_cons, List.filterMap_map, ih (n + 1)]
    have harg : (fun i => g (n + 1 + i, t.getD i false))
        = ((fun i => g (n + i, (b :: t).getD i false)) ∘ Nat.succ) := by
      funext i
      have hn : n + 1 + i = n + (i + 1) := by omega
      simp [Function.comp, hn, List.getD_cons_succ]
    rw [harg]
    simp [List.getD_cons_zero]

/-- On 64-bit keystates, the source comprehension computes exactly the
ascending-index scan of the claim wording. -/
theorem chordNames_eq_specNames (ks : List Bool) (hlen : ks.length = 64) :
    chordNames ks = specNames ks := by
  unfold chordNames specNames
  rw [show ks.enum = List.enumFrom 0 ks from rfl,
    enumFrom_filterMap (fun p => if p.2 then some (STENO_KEY_CHART.getD p.1 "") else none) ks 0,
    hlen]
  simp only [Nat.zero_add]

/-- An all-zero keystate yields no chord names. -/
theorem chordNames_eq_nil_of_zero (ks : List Bool) (hz : isZeroVec ks = true) :
    chordNames ks = [] := by
  rw [chordNames, List.filterMap_eq_nil_iff]
  rintro ⟨i, x⟩ hmem
  have hx : x ∈ ks := by
    rw [List.enum_eq_zip_range] at hmem
    exact (List.of_mem_zip hmem).2
  have hany : ks.any id = false := by simpa [isZeroVec] using hz
  have hfalse : x = false := by
    have := List.any_eq_false.mp hany x hx
    simpa using this
  simp [hfalse]

/-- Claim C4 counterexample: at the all-zero snapshot the claim says the
external chord resolver is not called, but send_to_plover passes the
(empty) chord-name list to keys_to_actions unconditionally: the flush log
records exactly one resolver call, with the empty sequence. -/
theorem C4_cex :
    isZeroVec state0.keystate = true
    ∧ (send_to_plover (fun _ => []) state0).1.resolver_calls
        = [([] : List String)] := by decide

/-- Claim C4 (amended): for every flush whose snapshot is all-zero, the
button-name sequence is empty and the notification sink is not invoked,
provided the resolver maps the empty sequence to an empty action set;
unlike the original claim, the resolver IS invoked, once, with the empty
sequence. -/
theorem C4_zero_flush (resolve : List String → List String) (s : LoopState)
    (hz : isZeroVec s.keystate = true) (hr : resolve [] = []) :
    chordNames s.keystate = []
    ∧ (send_to_plover resolve s).1.resolver_calls = [[]]
    ∧ (send_to_plover resolve s).1.notified = none := by
  have hnil := chordNames_eq_nil_of_zero s.keystate hz
  refine ⟨hnil, ?_, ?_⟩ <;> simp [send_to_plover, hnil, hr]

/-- Claim C4 witness: the amended statement at the initial state with the
identity resolver. -/
theorem C4_zero_flush_witness :
    chordNames state0.keystate = []
    ∧ (send_to_plover id state0).1.resolver_calls = [[]]
    ∧ (send_to_plover id state0).1.notified = none :=
  C4_zero_flush id state0 (by decide) rfl

/-- Claim C6: merging vectors A then B into a fresh all-zero accumulator
yields the pointwise OR of A and B; merging is associative and
commutative; and a flush after any sequence of merges consumes exactly the
cumulative OR as its snapshot and leaves the accumulator all-zero. -/
theorem C6_accumulator_algebra (A B C : List Bool) (vs : List (List Bool))
    (resolve : List String → List String) (d : Option ℕ) (st : List ℕ)
    (hA : A.length = 64) :
    orVec (orVec zeros64 A) B = orVec A B
    ∧ orVec (orVec A B) C = orVec A (orVec B C)
    ∧ orVec A B = orVec B A
    ∧ (send_to_plover resolve ⟨mergeAll vs, d, st⟩).1.snapshot = mergeAll vs
    ∧ (send_to_plover resolve ⟨mergeAll vs, d, st⟩).2.keystate = zeros64 := by
  have hz : orVec zeros64 A = A := by
    have h := orVec_zeros_left A
    rw [hA] at h
    exact h
  exact ⟨by rw [hz], orVec_assoc A B C, orVec_comm A B, rfl, rfl⟩

/-- Claim C6 witness: the statement instantiated with all-zero vectors and
an empty merge sequence. -/
theorem C6_accumulator_algebra_witness :
    orVec (orVec zeros64 zeros64) zeros64 = orVec zeros64 zeros64
    ∧ orVec (orVec zeros64 zeros64) zeros64 = orVec zeros64 (orVec zeros64 zeros64)
    ∧ orVec zeros64 zeros64 = orVec zeros64 zeros64
    ∧ (send_to_plover (fun _ => []) ⟨mergeAll [], none, []⟩).1.snapshot = mergeAll []
    ∧ (send_to_plover (fun _ => []) ⟨mergeAll [], none, []⟩).2.keystate = zeros64 :=
  C6_accumulator_algebra zeros64 zeros64 zeros64 [] (fun _ => []) none [] (by decide)

/-- Claim C8: for every non-zero 64-bit snapshot, send_to_plover passes to
the external resolver exactly the sequence obtained by scanning bit
indices 0..63 in ascending order and appending, for each set bit, the
corresponding entry of the lever-index-to-name table; and the notification
sink is invoked exactly when the resolver returns a non-empty action
set. -/
theorem C8_emitter (resolve : List String → List String) (s : LoopState)
    (hlen : s.keystate.length = 64) (hnz : isZeroVec s.keystate = false) :
    (send_to_plover resolve s).1.resolver_calls = [specNames s.keystate]
    ∧ ((send_to_plover resolve s).1.notified ≠ none
        ↔ resolve (specNames s.keystate) ≠ []) := by
  have hb := chordNames_eq_specNames s.keystate hlen
  constructor
  · simp [send_to_plover, hb]
  · by_cases hres : resolve (specNames s.keystate) = [] <;>
      simp [send_to_plover, hb, hres]

/-- Claim C8 witness: the snapshot with exactly bit 0 set, under the
identity resolver. -/
theorem C8_emitter_witness :
    (send_to_plover id ⟨true :: List.replicate 63 false, none, []⟩).1.resolver_calls
        = [specNames (true :: List.replicate 63 false)]
    ∧ ((send_to_plover id ⟨true :: List.replicate 63 false, none, []⟩).1.notified ≠ none
        ↔ id (specNames (true :: List.replicate 63 false)) ≠ []) :=
  C8_emitter id ⟨true :: List.replicate 63 false, none, []⟩ (by decide) (by decide)

end PloverHid
